import Mathlib

/-!
Shallow embedding of the scalar / constant-value layer of a compile-time
constant evaluator (`src/librustc/mir/interpret/value.rs`), together with
proofs of its specified properties.

Machine integers are modelled as `Nat` bit patterns with explicit `% 2 ^ w`
where wrap-around matters. Fallible operations return `Res`, which
distinguishes typed evaluation errors from fail-fast assertion aborts
(Rust `assert!` panics). Debug-only assertions (`debug_assert_eq!`) are
compiled out in release builds and are therefore not part of the modelled
semantics. Components that `value.rs` imports from modules outside this
repository slice (the bit primitives, `Pointer` arithmetic and the
data-layout offset routines) are modelled from the specification, as marked
in their doc comments.
-/

namespace Interp

/-- Typed evaluation-error signals of the value layer (spec section 7). -/
inductive EvalErrorKind where
| ReadPointerAsBytes
| ReadBytesAsPointer
| InvalidNullPointerUsage
| InvalidBool
| InvalidChar (pattern : Nat)
| Overflow
deriving DecidableEq

/-- Outcome of a fallible operation: a value, a typed evaluation error, or a
fail-fast assertion abort (Rust panic). -/
inductive Res (α : Type) where
| ok (a : α)
| evalErr (e : EvalErrorKind)
| panic
deriving DecidableEq

/-- Sequencing of fallible outcomes (Rust's `?` operator); errors and aborts
propagate. -/
def Res.bind {α β : Type} : Res α → (α → Res β) → Res β
| Res.ok a, f => f a
| Res.evalErr e, _ => Res.evalErr e
| Res.panic, _ => Res.panic

/-- Modelled from the spec: `truncate(value, widthBytes)` masks a 128-bit
unsigned value to its low `widthBytes * 8` bits. The function is imported by
`value.rs` from a module outside this repository slice. -/
def truncate (value : Nat) (widthBytes : Nat) : Nat :=
value % 2 ^ (widthBytes * 8)

/-- Modelled from the spec: `signExtend(value, widthBytes)` takes an
already-truncated value and replicates its sign bit (bit
`widthBytes * 8 - 1`) into all higher bits of the 128-bit backing store.
Imported by `value.rs` from outside this repository slice. -/
def sign_extend (value : Nat) (widthBytes : Nat) : Nat :=
if value < 2 ^ (widthBytes * 8 - 1) then value
else value + (2 ^ 128 - 2 ^ (widthBytes * 8))

/-- Reinterpret a 128-bit pattern as a signed integer (Rust `as i128`). -/
def i128ofBits (x : Nat) : Int :=
if x < 2 ^ 127 then (x : Int) else (x : Int) - 2 ^ 128

/-- Modelled from the spec: a `Pointer` is an opaque allocation identity
(a value-equal handle) plus an unsigned byte offset into that allocation's
address space. Defined outside this repository slice. -/
structure Pointer where
alloc_id : Nat
offset : Nat
deriving DecidableEq

/-- Modelled from the spec: the data-layout capability supplies the target
pointer width in bytes. Defined outside this repository slice. -/
structure DataLayout where
pointer_size : Nat
deriving DecidableEq

/-- Modelled from the spec: `checkedSignedOffset` over the
`2 ^ (pointerSizeBytes * 8)`-wide address space; checked variants report an
overflow / out-of-range error. Defined outside this repository slice. -/
def DataLayout.signed_offset (l : DataLayout) (val : Nat) (i : Int) : Res Nat :=
if 0 ≤ (val : Int) + i ∧ (val : Int) + i < 2 ^ (l.pointer_size * 8) then
  Res.ok ((val : Int) + i).toNat
else Res.evalErr EvalErrorKind.Overflow

/-- Modelled from the spec: `wrappingSignedOffset` treats addresses as a
`2 ^ (pointerSizeBytes * 8)`-wide modular space and never fails. Defined
outside this repository slice. -/
def DataLayout.wrapping_signed_offset (l : DataLayout) (val : Nat) (i : Int) : Nat :=
(((val : Int) + i) % (2 ^ (l.pointer_size * 8) : Int)).toNat

/-- Modelled from the spec: the Pointer's checked signed-offset operation
updates only the numeric offset and preserves the allocation identity
unchanged. Defined outside this repository slice. -/
def Pointer.signed_offset (p : Pointer) (i : Int) (l : DataLayout) : Res Pointer :=
Res.bind (l.signed_offset p.offset i) (fun o => Res.ok (Pointer.mk p.alloc_id o))

/-- Modelled from the spec: the Pointer's wrapping signed-offset operation
updates only the numeric offset and preserves the allocation identity
unchanged. Defined outside this repository slice. -/
def Pointer.wrapping_signed_offset (p : Pointer) (i : Int) (l : DataLayout) : Pointer :=
Pointer.mk p.alloc_id (l.wrapping_signed_offset p.offset i)

/-- The atomic interpreter value of `value.rs`: raw bits with an explicit
byte-width tag, or a relocatable pointer. -/
inductive Scalar where
| Bits (size : Nat) (bits : Nat)
| Ptr (p : Pointer)
deriving DecidableEq

/-- `Scalar::ptr_null`: a pointer-width `Bits` pattern of zero. -/
def Scalar.ptr_null (l : DataLayout) : Scalar :=
Scalar.Bits l.pointer_size 0

/-- `Scalar::zst`: the zero-sized scalar, width 0 and pattern 0. -/
def Scalar.zst : Scalar :=
Scalar.Bits 0 0

/-- `Scalar::ptr_signed_offset`: on `Bits`, asserts the width equals the
pointer size (`assert_eq!`, modelled as `Res.panic`), truncates the pattern
to `u64` (`bits as u64`) and delegates to the layout's checked signed
offset; on `Ptr`, delegates to the pointer's checked signed offset. -/
def Scalar.ptr_signed_offset (s : Scalar) (i : Int) (l : DataLayout) : Res Scalar :=
match s with
| Scalar.Bits size bits =>
    if size = l.pointer_size then
      Res.bind (l.signed_offset (bits % 2 ^ 64) i) (fun b => Res.ok (Scalar.Bits size b))
    else Res.panic
| Scalar.Ptr p => Res.bind (p.signed_offset i l) (fun q => Res.ok (Scalar.Ptr q))

/-- `Scalar::ptr_wrapping_signed_offset`: like `ptr_signed_offset` but
delegating to the wrapping routines; its Rust return type is `Self`, with no
error channel (only the width `assert_eq!` can abort). -/
def Scalar.ptr_wrapping_signed_offset (s : Scalar) (i : Int) (l : DataLayout) : Res Scalar :=
match s with
| Scalar.Bits size bits =>
    if size = l.pointer_size then
      Res.ok (Scalar.Bits size (l.wrapping_signed_offset (bits % 2 ^ 64) i))
    else Res.panic
| Scalar.Ptr p => Res.ok (Scalar.Ptr (p.wrapping_signed_offset i l))

/-- `Scalar::is_null_ptr`: asserts pointer width on `Bits` and tests the
pattern against zero; any `Ptr` is not null. -/
def Scalar.is_null_ptr (s : Scalar) (l : DataLayout) : Res Bool :=
match s with
| Scalar.Bits size bits =>
    if size = l.pointer_size then Res.ok (decide (bits = 0)) else Res.panic
| Scalar.Ptr _ => Res.ok false

/-- `Scalar::from_bool`: width-1 bits, `true` as 1 and `false` as 0. -/
def Scalar.from_bool (b : Bool) : Scalar :=
Scalar.Bits 1 (if b then 1 else 0)

/-- `Scalar::from_uint`: stores the value under the given byte-width tag
(the truncation round-trip `debug_assert_eq!` is compiled out in release). -/
def Scalar.from_uint (i : Nat) (sizeBytes : Nat) : Scalar :=
Scalar.Bits sizeBytes i

/-- `Scalar::from_int`: reinterprets the signed value as a 128-bit pattern
(`i as u128`), truncates it to the given width and stores it (the
sign-extension round-trip `debug_assert_eq!` is compiled out in release). -/
def Scalar.from_int (i : Int) (sizeBytes : Nat) : Scalar :=
Scalar.Bits sizeBytes (truncate (i % ((2 : Int) ^ 128)).toNat sizeBytes)

/-- `Scalar::to_bits`: asserts the requested width equals the stored width
and that the width is nonzero ("to_bits cannot be used with zsts"); fails
with `ReadPointerAsBytes` on a `Ptr`. -/
def Scalar.to_bits (s : Scalar) (target_size : Nat) : Res Nat :=
match s with
| Scalar.Bits size bits =>
    if target_size = size then
      if size = 0 then Res.panic else Res.ok bits
    else Res.panic
| Scalar.Ptr _ => Res.evalErr EvalErrorKind.ReadPointerAsBytes

/-- `Scalar::to_ptr`: a zero `Bits` pattern fails with
`InvalidNullPointerUsage`, a nonzero one with `ReadBytesAsPointer`, and a
`Ptr` yields its pointer. -/
def Scalar.to_ptr (s : Scalar) : Res Pointer :=
match s with
| Scalar.Bits _ bits =>
    if bits = 0 then Res.evalErr EvalErrorKind.InvalidNullPointerUsage
    else Res.evalErr EvalErrorKind.ReadBytesAsPointer
| Scalar.Ptr p => Res.ok p

/-- `Scalar::is_bits`: tag test for the `Bits` variant. -/
def Scalar.is_bits (s : Scalar) : Bool :=
match s with
| Scalar.Bits _ _ => true
| Scalar.Ptr _ => false

/-- `Scalar::to_bool`: width must be exactly 1 and the pattern 0 or 1, else
`InvalidBool`. -/
def Scalar.to_bool (s : Scalar) : Res Bool :=
match s with
| Scalar.Bits size bits =>
    if size = 1 ∧ bits = 0 then Res.ok false
    else if size = 1 ∧ bits = 1 then Res.ok true
    else Res.evalErr EvalErrorKind.InvalidBool
| Scalar.Ptr _ => Res.evalErr EvalErrorKind.InvalidBool

/-- `Scalar::to_i8`: reads the bits at width 1, sign-extends, reinterprets
as signed, and asserts the result is representable in 8 bits. -/
def Scalar.to_i8 (s : Scalar) : Res Int :=
Res.bind (s.to_bits 1) (fun b =>
  let v := i128ofBits (sign_extend b 1)
  if -(2 ^ 7) ≤ v ∧ v < 2 ^ 7 then Res.ok v else Res.panic)

/-- `Scalar::to_i32`: reads the bits at width 4, sign-extends, reinterprets
as signed, and asserts the result is representable in 32 bits. -/
def Scalar.to_i32 (s : Scalar) : Res Int :=
Res.bind (s.to_bits 4) (fun b =>
  let v := i128ofBits (sign_extend b 4)
  if -(2 ^ 31) ≤ v ∧ v < 2 ^ 31 then Res.ok v else Res.panic)

/-- `Scalar::to_i64`: reads the bits at width 8, sign-extends, reinterprets
as signed, and asserts the result is representable in 64 bits. -/
def Scalar.to_i64 (s : Scalar) : Res Int :=
Res.bind (s.to_bits 8) (fun b =>
  let v := i128ofBits (sign_extend b 8)
  if -(2 ^ 63) ≤ v ∧ v < 2 ^ 63 then Res.ok v else Res.panic)

/-- The compile-time constant envelope of `value.rs`. The deferred-constant
definition handle, substitutions, allocation identities, allocation
contents and byte offsets are opaque external handles, modelled as `Nat`. -/
inductive ConstValue where
| Unevaluated (def_id : Nat) (substs : Nat)
| Scalar (s : Interp.Scalar)
| ScalarPair (a : Interp.Scalar) (b : Interp.Scalar)
| ByRef (alloc_id : Nat) (alloc : Nat) (offset : Nat)
deriving DecidableEq

/-- `ConstValue::try_to_scalar`: narrows only the `Scalar` variant. -/
def ConstValue.try_to_scalar (c : ConstValue) : Option Interp.Scalar :=
match c with
| ConstValue.Unevaluated _ _ => none
| ConstValue.ByRef _ _ _ => none
| ConstValue.ScalarPair _ _ => none
| ConstValue.Scalar v => some v

/-- `ConstValue::try_to_bits`: narrows to a scalar, then discards the
error of `to_bits` (`.ok()`); the width-assert abort still propagates. -/
def ConstValue.try_to_bits (c : ConstValue) (size : Nat) : Res (Option Nat) :=
match c.try_to_scalar with
| none => Res.ok none
| some s =>
    match s.to_bits size with
    | Res.ok b => Res.ok (some b)
    | Res.evalErr _ => Res.ok none
    | Res.panic => Res.panic

/-- `ConstValue::try_to_ptr`: narrows to a scalar, then discards the error
of `to_ptr` (`.ok()`); `to_ptr` never aborts. -/
def ConstValue.try_to_ptr (c : ConstValue) : Option Pointer :=
match c.try_to_scalar with
| none => none
| some s =>
    match s.to_ptr with
    | Res.ok p => some p
    | Res.evalErr _ => none
    | Res.panic => none

/-- `ConstValue::new_slice`: the fat-pointer encoding of a slice or string,
pairing the data pointer with the length as a pointer-width `Bits` (the
`len as u128` cast widens without truncation). -/
def ConstValue.new_slice (val : Interp.Scalar) (len : Nat) (l : DataLayout) : ConstValue :=
ConstValue.ScalarPair val (Interp.Scalar.Bits l.pointer_size len)

/-- `ConstValue::new_dyn_trait`: the trait-object fat pointer, pairing the
data pointer with the vtable pointer. -/
def ConstValue.new_dyn_trait (val : Interp.Scalar) (vtable : Pointer) : ConstValue :=
ConstValue.ScalarPair val (Interp.Scalar.Ptr vtable)

/-- Width precondition of the scalar offset operations: a `Bits` scalar must
carry the platform pointer width (the `assert_eq!` at the top of each
arithmetic method); a `Ptr` has no width precondition. -/
def Scalar.width_ok (s : Scalar) (l : DataLayout) : Prop :=
match s with
| Scalar.Bits size _ => size = l.pointer_size
| Scalar.Ptr _ => True

/-- C3: for every width in {1,2,4,8,16} bytes and every 128-bit unsigned value
`v` unchanged by truncation to that width, `from_uint` followed by `to_bits` at
that width returns `v`. -/
theorem from_uint_to_bits_roundtrip (v w : Nat)
    (hw : w = 1 ∨ w = 2 ∨ w = 4 ∨ w = 8 ∨ w = 16) (_hv : truncate v w = v) :
    (Scalar.from_uint v w).to_bits w = Res.ok v := by
  have hw0 : ¬w = 0 := by rcases hw with h | h | h | h | h <;> omega
  simp [Scalar.from_uint, Scalar.to_bits, hw0]

/-- Witness for the C3 round trip at `v = 300`, `w = 2`. -/
theorem from_uint_to_bits_roundtrip_witness :
    (Scalar.from_uint 300 2).to_bits 2 = Res.ok 300 :=
  from_uint_to_bits_roundtrip 300 2 (by decide) (by decide)

/-- Counterexample to C1 as stated: on a pointer-width `Bits` scalar at the top
of the address space, the checked signed-offset operation reports the
address-space overflow error instead of performing plain modular addition
(which would give the `Bits` pattern 0). -/
theorem bits_signed_offset_counterexample :
    (Scalar.Bits 8 (2 ^ 64 - 1)).ptr_signed_offset 1 (DataLayout.mk 8)
      = Res.evalErr EvalErrorKind.Overflow ∧
    ((((2 : Int) ^ 64 - 1) + 1) % 2 ^ 64).toNat = 0 := by
  constructor
  · decide
  · decide

/-- C1 (amended): offsetting `Ptr p` by `+i` and then by `-i` through the
checked signed-offset operation, with both checked offsets in bounds, returns
the original pointer unchanged, allocation identity included; and on a
pointer-width `Bits` scalar whose checked offset stays inside the address
space, the same operation returns the modular sum as a `Bits` scalar, never a
`Ptr`, carrying no relocation. -/
theorem ptr_signed_offset_roundtrip (l : DataLayout) (p : Pointer) (b : Nat) (i : Int)
    (hl : l.pointer_size ≤ 8)
    (hp : (p.offset : Int) < 2 ^ (l.pointer_size * 8))
    (h1 : 0 ≤ (p.offset : Int) + i)
    (h2 : (p.offset : Int) + i < 2 ^ (l.pointer_size * 8))
    (hb : (b : Int) < 2 ^ (l.pointer_size * 8))
    (h3 : 0 ≤ (b : Int) + i)
    (h4 : (b : Int) + i < 2 ^ (l.pointer_size * 8)) :
    Res.bind ((Scalar.Ptr p).ptr_signed_offset i l)
        (fun s => s.ptr_signed_offset (-i) l) = Res.ok (Scalar.Ptr p) ∧
    (Scalar.Bits l.pointer_size b).ptr_signed_offset i l
      = Res.ok (Scalar.Bits l.pointer_size
          (((b : Int) + i) % 2 ^ (l.pointer_size * 8)).toNat) := by
  have hbN : b < 2 ^ (l.pointer_size * 8) := by exact_mod_cast hb
  have hb64 : b % 2 ^ 64 = b :=
    Nat.mod_eq_of_lt (lt_of_lt_of_le hbN (Nat.pow_le_pow_right (by norm_num) (by omega)))
  constructor
  · obtain ⟨a, o⟩ := p
    dsimp only at hp h1 h2
    simp only [Scalar.ptr_signed_offset, Pointer.signed_offset, DataLayout.signed_offset,
      Res.bind]
    rw [if_pos ⟨h1, h2⟩]
    simp only [Res.bind]
    have ht : ((((o : Int) + i).toNat : Int)) = (o : Int) + i := Int.toNat_of_nonneg h1
    rw [if_pos (show 0 ≤ ((((o : Int) + i).toNat : Int)) + -i ∧
        ((((o : Int) + i).toNat : Int)) + -i < 2 ^ (l.pointer_size * 8) by
      rw [ht]
      exact ⟨by omega, by omega⟩)]
    have ho : ((((o : Int) + i).toNat : Int) + -i).toNat = o := by omega
    rw [ho]
  · simp only [Scalar.ptr_signed_offset, DataLayout.signed_offset, hb64]
    rw [if_pos trivial, if_pos ⟨h3, h4⟩]
    simp only [Res.bind]
    rw [Int.emod_eq_of_lt h3 h4]

/-- Witness for the C1 round trip: offsetting the pointer with allocation
identity 7 and offset 10 by +3 then -3 under an 8-byte pointer layout. -/
theorem ptr_signed_offset_roundtrip_witness :
    Res.bind ((Scalar.Ptr (Pointer.mk 7 10)).ptr_signed_offset 3 (DataLayout.mk 8))
        (fun s => s.ptr_signed_offset (-3) (DataLayout.mk 8))
      = Res.ok (Scalar.Ptr (Pointer.mk 7 10)) :=
  (ptr_signed_offset_roundtrip (DataLayout.mk 8) (Pointer.mk 7 10) 5 3 (by decide)
    (by norm_num) (by norm_num) (by norm_num) (by norm_num) (by norm_num) (by norm_num)).1

/-- C2: `to_ptr` fails with `InvalidNullPointerUsage` exactly on a `Bits`
scalar with pattern zero, fails with `ReadBytesAsPointer` exactly on a `Bits`
scalar with a nonzero pattern, and returns `p` exactly on `Ptr p`. -/
theorem to_ptr_spec (s : Scalar) :
    (s.to_ptr = Res.evalErr EvalErrorKind.InvalidNullPointerUsage ↔ ∃ n, s = Scalar.Bits n 0) ∧
    (s.to_ptr = Res.evalErr EvalErrorKind.ReadBytesAsPointer ↔ ∃ n b, s = Scalar.Bits n b ∧ b ≠ 0) ∧
    (∀ p, s.to_ptr = Res.ok p ↔ s = Scalar.Ptr p) := by
  cases s with
  | Bits size bits =>
      by_cases hb : bits = 0
      · simp_all [Scalar.to_ptr]
      · simp_all [Scalar.to_ptr]
        exact ⟨size, bits, ⟨rfl, rfl⟩, hb⟩
  | Ptr p => simp [Scalar.to_ptr]

/-- Counterexample to C5 as stated: `to_bits` on the zero-sized scalar at
target width 0 hits the "to_bits cannot be used with zsts" assertion and
aborts; it does not succeed with 0. -/
theorem zst_to_bits_counterexample :
    Scalar.zst.to_bits 0 = Res.panic ∧ Scalar.zst.to_bits 0 ≠ Res.ok 0 := by decide

/-- C5 (amended): `zst` constructs the `Bits` scalar of width 0 and pattern 0
and `is_bits` on it is true, but `to_bits` at target width 0 trips the
zero-size assertion (fail-fast abort) instead of returning 0. -/
theorem zst_spec :
    Scalar.zst = Scalar.Bits 0 0 ∧ Scalar.zst.is_bits = true ∧
    Scalar.zst.to_bits 0 = Res.panic := by decide

/-- C6: `is_null_ptr` answers true exactly on the pointer-width `Bits` scalar
with pattern zero, in particular on `ptr_null`, and answers false on every
`Ptr` scalar regardless of its numeric offset. -/
theorem is_null_ptr_spec (l : DataLayout) (s : Scalar) :
    (s.is_null_ptr l = Res.ok true ↔ s = Scalar.Bits l.pointer_size 0) ∧
    (∀ p, (Scalar.Ptr p).is_null_ptr l = Res.ok false) ∧
    (Scalar.ptr_null l).is_null_ptr l = Res.ok true := by
  refine ⟨?_, fun p => rfl, by simp [Scalar.ptr_null, Scalar.is_null_ptr]⟩
  cases s with
  | Bits sz b =>
      by_cases h : sz = l.pointer_size
      · subst h
        simp [Scalar.is_null_ptr]
      · simp [Scalar.is_null_ptr, h]
  | Ptr p => simp [Scalar.is_null_ptr]

/-- C7: `to_bool` returns true on `from_bool true`, false on
`from_bool false`, and fails with `InvalidBool` on every scalar that is not a
width-1 `Bits` with pattern 0 or 1, for example the width-1 pattern 2. -/
theorem to_bool_spec :
    (Scalar.from_bool true).to_bool = Res.ok true ∧
    (Scalar.from_bool false).to_bool = Res.ok false ∧
    (∀ s : Scalar, s ≠ Scalar.Bits 1 0 → s ≠ Scalar.Bits 1 1 →
      s.to_bool = Res.evalErr EvalErrorKind.InvalidBool) ∧
    (Scalar.Bits 1 2).to_bool = Res.evalErr EvalErrorKind.InvalidBool := by
  refine ⟨by decide, by decide, ?_, by decide⟩
  intro s h0 h1
  cases s with
  | Bits sz b =>
      simp only [ne_eq, Scalar.Bits.injEq, not_and] at h0 h1
      simp only [Scalar.to_bool]
      rw [if_neg, if_neg]
      · rintro ⟨rfl, rfl⟩
        exact h1 rfl rfl
      · rintro ⟨rfl, rfl⟩
        exact h0 rfl rfl
  | Ptr p => rfl

/-- Witness for C7 at the width-2 pattern 7, which is neither of the two
boolean encodings. -/
theorem to_bool_spec_witness :
    (Scalar.Bits 2 7).to_bool = Res.evalErr EvalErrorKind.InvalidBool :=
  to_bool_spec.2.2.1 (Scalar.Bits 2 7) (by decide) (by decide)

/-- C8: the wrapping signed-offset operation never produces an evaluation
error, and returns a scalar whenever the width precondition of the
`assert_eq!` holds, whereas the checked signed-offset form can fail with the
address-space overflow error. -/
theorem ptr_wrapping_signed_offset_total (s : Scalar) (i : Int) (l : DataLayout) :
    (∀ e, s.ptr_wrapping_signed_offset i l ≠ Res.evalErr e) ∧
    (s.width_ok l → ∃ t, s.ptr_wrapping_signed_offset i l = Res.ok t) ∧
    (Scalar.Bits 8 (2 ^ 64 - 1)).ptr_signed_offset 1 (DataLayout.mk 8)
      = Res.evalErr EvalErrorKind.Overflow := by
  refine ⟨?_, ?_, by decide⟩
  · intro e
    cases s with
    | Bits sz b =>
        simp only [Scalar.ptr_wrapping_signed_offset]
        split <;> intro h <;> cases h
    | Ptr p => intro h; cases h
  · intro hw
    cases s with
    | Bits sz b =>
        simp only [Scalar.width_ok] at hw
        simp [Scalar.ptr_wrapping_signed_offset, hw]
    | Ptr p => exact ⟨_, rfl⟩

/-- Witness for C8 on a `Ptr` scalar under an 8-byte pointer layout. -/
theorem ptr_wrapping_signed_offset_total_witness :
    (Scalar.Ptr (Pointer.mk 1 2)).ptr_wrapping_signed_offset (-5) (DataLayout.mk 8)
      ≠ Res.evalErr EvalErrorKind.Overflow ∧
    ∃ t, (Scalar.Ptr (Pointer.mk 1 2)).ptr_wrapping_signed_offset (-5) (DataLayout.mk 8)
      = Res.ok t :=
  ⟨(ptr_wrapping_signed_offset_total (Scalar.Ptr (Pointer.mk 1 2)) (-5) (DataLayout.mk 8)).1
      EvalErrorKind.Overflow,
   (ptr_wrapping_signed_offset_total (Scalar.Ptr (Pointer.mk 1 2)) (-5) (DataLayout.mk 8)).2.1
      trivial⟩

/-- C9: `new_slice` builds exactly the pair of the data pointer and the
length as a pointer-width `Bits`, and `try_to_scalar` returns `none` on the
result, as it does on every `Unevaluated`, `ByRef` and `ScalarPair` value. -/
theorem new_slice_spec (p : Scalar) (n : Nat) (l : DataLayout) :
    ConstValue.new_slice p n l = ConstValue.ScalarPair p (Scalar.Bits l.pointer_size n) ∧
    (ConstValue.new_slice p n l).try_to_scalar = none ∧
    (∀ d su, (ConstValue.Unevaluated d su).try_to_scalar = none) ∧
    (∀ i a o, (ConstValue.ByRef i a o).try_to_scalar = none) ∧
    (∀ a b, (ConstValue.ScalarPair a b).try_to_scalar = none) :=
  ⟨rfl, rfl, fun _ _ => rfl, fun _ _ _ => rfl, fun _ _ => rfl⟩

/-- C10: the narrowing helpers discard scalar-level errors: `try_to_bits` on a
`ConstValue.Scalar` wrapping a `Ptr` returns `none` rather than an error, and
`try_to_ptr` on one wrapping a `Bits` pattern returns `none`, even though
`try_to_scalar` does narrow the very same values. -/
theorem const_value_try_narrow_spec (p : Pointer) (sz b w : Nat) (s : Scalar) :
    (ConstValue.Scalar (Scalar.Ptr p)).try_to_bits w = Res.ok none ∧
    (ConstValue.Scalar (Scalar.Bits sz b)).try_to_ptr = none ∧
    (ConstValue.Scalar s).try_to_scalar = some s := by
  refine ⟨rfl, ?_, rfl⟩
  by_cases hb : b = 0 <;>
    simp [ConstValue.try_to_ptr, ConstValue.try_to_scalar, Scalar.to_ptr, hb]

/-- Helper for C4: `to_bits` succeeds on a `Bits` scalar queried at its own
nonzero width. -/
theorem to_bits_ok (sz t : Nat) (h : ¬sz = 0) : (Scalar.Bits sz t).to_bits sz = Res.ok t := by
  simp [Scalar.to_bits, h]

/-- Helper for C4: reading back a stored signed value through truncation,
sign extension and 128-bit reinterpretation is the identity on values
representable at the given width. -/
theorem sign_extend_roundtrip (v : Int) (w : Nat) (hw : w = 1 ∨ w = 4 ∨ w = 8)
    (h1 : -(2 ^ (w * 8 - 1)) ≤ v) (h2 : v < 2 ^ (w * 8 - 1)) :
    i128ofBits (sign_extend (truncate (v % ((2 : Int) ^ 128)).toNat w) w) = v := by
  have h5 : ((v % ((2 : Int) ^ 128)).toNat : Int) = v % 2 ^ 128 :=
    Int.toNat_of_nonneg (Int.emod_nonneg v (by norm_num))
  unfold i128ofBits sign_extend truncate
  rcases hw with rfl | rfl | rfl <;> [skip; skip; skip] <;>
    (norm_num at h1 h2 h5 ⊢; split_ifs <;> omega)

/-- C4: for widths 1, 4 and 8 bytes, the matching signed accessor (`to_i8`,
`to_i32`, `to_i64`, each reading the bits and sign-extending at its width)
applied to `from_int v` returns `v` whenever `v` is representable in two's
complement at that width. -/
theorem from_int_signed_roundtrip (v : Int) :
    (-(2 ^ 7) ≤ v → v < 2 ^ 7 → (Scalar.from_int v 1).to_i8 = Res.ok v) ∧
    (-(2 ^ 31) ≤ v → v < 2 ^ 31 → (Scalar.from_int v 4).to_i32 = Res.ok v) ∧
    (-(2 ^ 63) ≤ v → v < 2 ^ 63 → (Scalar.from_int v 8).to_i64 = Res.ok v) := by
  refine ⟨fun h1 h2 => ?_, fun h1 h2 => ?_, fun h1 h2 => ?_⟩
  · have key := sign_extend_roundtrip v 1 (by norm_num) (by norm_num; exact h1)
      (by norm_num; exact h2)
    rw [show (Scalar.from_int v 1).to_i8
        = (if -(2 ^ 7) ≤ i128ofBits (sign_extend (truncate (v % ((2 : Int) ^ 128)).toNat 1) 1) ∧
              i128ofBits (sign_extend (truncate (v % ((2 : Int) ^ 128)).toNat 1) 1) < 2 ^ 7 then
            Res.ok (i128ofBits (sign_extend (truncate (v % ((2 : Int) ^ 128)).toNat 1) 1))
          else Res.panic) from rfl, key, if_pos ⟨h1, h2⟩]
  · have key := sign_extend_roundtrip v 4 (by norm_num) (by norm_num; exact h1)
      (by norm_num; exact h2)
    rw [show (Scalar.from_int v 4).to_i32
        = (if -(2 ^ 31) ≤ i128ofBits (sign_extend (truncate (v % ((2 : Int) ^ 128)).toNat 4) 4) ∧
              i128ofBits (sign_extend (truncate (v % ((2 : Int) ^ 128)).toNat 4) 4) < 2 ^ 31 then
            Res.ok (i128ofBits (sign_extend (truncate (v % ((2 : Int) ^ 128)).toNat 4) 4))
          else Res.panic) from rfl, key, if_pos ⟨h1, h2⟩]
  · have key := sign_extend_roundtrip v 8 (by norm_num) (by norm_num; exact h1)
      (by norm_num; exact h2)
    rw [show (Scalar.from_int v 8).to_i64
        = (if -(2 ^ 63) ≤ i128ofBits (sign_extend (truncate (v % ((2 : Int) ^ 128)).toNat 8) 8) ∧
              i128ofBits (sign_extend (truncate (v % ((2 : Int) ^ 128)).toNat 8) 8) < 2 ^ 63 then
            Res.ok (i128ofBits (sign_extend (truncate (v % ((2 : Int) ^ 128)).toNat 8) 8))
          else Res.panic) from rfl, key, if_pos ⟨h1, h2⟩]

/-- Witness for C4 at negative values of each width. -/
theorem from_int_signed_roundtrip_witness :
    (Scalar.from_int (-5) 1).to_i8 = Res.ok (-5) ∧
    (Scalar.from_int (-70000) 4).to_i32 = Res.ok (-70000) ∧
    (Scalar.from_int (-5000000000) 8).to_i64 = Res.ok (-5000000000) :=
  ⟨(from_int_signed_roundtrip (-5)).1 (by norm_num) (by norm_num),
   (from_int_signed_roundtrip (-70000)).2.1 (by norm_num) (by norm_num),
   (from_int_signed_roundtrip (-5000000000)).2.2 (by norm_num) (by norm_num)⟩

end Interp
